import Mathlib

/-!
Verification of the Gafaelfawr OIDC provider, child-token cache, and
downstream OIDC service against their natural-language specification.

The Python sources are shallowly embedded as executable Lean functions:

* `providers/oidc.py` — `get_redirect_url` (query-parameter assembly),
  `create_user_info` (token-endpoint response handling), and
  `_get_key_as_pem` (JWKS key selection).
* `services/token_cache.py` — `get_internal_token`, `get_notebook_token`,
  `_create_internal_token`, `_create_notebook_token`, `_is_token_valid`,
  `_minimum_expiration`.
* `services/oidc.py` (not included in the source tree; modelled from the
  spec) — `issue_code` and `redeem_code`.

Timestamps are modelled as integers (seconds, UTC); the one place the
Python code divides a duration by two in floating point is modelled by an
exact rational comparison, which agrees with the float computation for
integral second counts.  External collaborators (HTTP client, Redis,
database, crypto, randomness, clock) are modelled as explicit function
parameters or explicit state, following the specification's interface
boundary.
-/

/- ---------------------------------------------------------------------
   JWKS key selection: `OIDCTokenVerifier._get_key_as_pem`
   (src/gafaelfawr/providers/oidc.py)
--------------------------------------------------------------------- -/

/-- A JWKS entry as returned in the `keys` array: a JSON object modelled
as an association list of string fields (`kid`, `alg`, `e`, `n`, ...).
Python `k[field]` raises `KeyError` when the field is absent, which the
embedding surfaces through `Except`. -/
structure JWK where
  attrs : List (String × String)
deriving DecidableEq, Repr

/-- Field access on a JWKS entry (`k.get(field)` semantics: `none` when
the field is absent). -/
def JWK.find (k : JWK) (field : String) : Option String :=
  k.attrs.lookup field

/-- Errors arising from `_get_key_as_pem`.  `keyError` models an untyped
Python `KeyError` escaping from a subscript on a malformed JWKS entry;
the other constructors model the typed Gafaelfawr exceptions. -/
inductive VerifyErr where
  | keyError (field : String)
  | unknownKeyId (msg : String)
  | unknownAlgorithm (msg : String)
  | fetchKeys (msg : String)
deriving DecidableEq, Repr

/-- The linear scan in `_get_key_as_pem`:
`key = None; for k in keys: if key_id == k["kid"]: key = k`.
The accumulator is overwritten on every match (no `break`), and a missing
`kid` field raises `KeyError` at the entry being scanned. -/
def scanKeys (keyId : String) (acc : Option JWK) : List JWK → Except VerifyErr (Option JWK)
  | [] => .ok acc
  | k :: rest =>
    match k.find "kid" with
    | none => .error (.keyError "kid")
    | some kid => scanKeys keyId (if keyId == kid then some k else acc) rest

/-- Whether a JWKS entry has a `kid` field equal to the requested key id
(Python `key_id == k["kid"]`, evaluated only on entries whose `kid`
exists). -/
def kidMatches (keyId : String) (k : JWK) : Bool :=
  match k.find "kid" with
  | some s => keyId == s
  | none => false

/-- `_get_key_as_pem`, embedded up to (and excluding) the conversion of
the selected `(e, n)` fields to a PEM-encoded public key, which is done
by the external cryptography library (`_build_public_key` and
`base64_to_number` are out of scope per the spec).  The function returns
the `(e, n)` fields of the selected entry. -/
def get_key_as_pem (algorithm issuerUrl keyId : String) (keys : List JWK) :
    Except VerifyErr (String × String) :=
  match scanKeys keyId none keys with
  | .error err => .error err
  | .ok none =>
      .error (.unknownKeyId ("Issuer " ++ issuerUrl ++ " has no kid " ++ keyId))
  | .ok (some key) =>
      match key.find "alg" with
      | none => .error (.keyError "alg")
      | some alg =>
        if alg ≠ algorithm then
          .error (.unknownAlgorithm
            ("Issuer " ++ issuerUrl ++ " kid " ++ keyId ++ " had algorithm "
              ++ alg ++ " not " ++ algorithm))
        else
          match key.find "e" with
          | none => .error (.keyError "e")
          | some e =>
            match key.find "n" with
            | none => .error (.keyError "n")
            | some n => .ok (e, n)

/- ---------------------------------------------------------------------
   `OIDCProvider.get_redirect_url` (src/gafaelfawr/providers/oidc.py)
--------------------------------------------------------------------- -/

/-- Python `dict` single-key update: replace the value at the first
occurrence of the key, keeping its position; append when absent. -/
def dictInsert : List (String × String) → String → String → List (String × String)
  | [], k, v => [(k, v)]
  | p :: rest, k, v =>
      if p.1 == k then (k, v) :: rest else p :: dictInsert rest k v

/-- Python `dict.update`: fold `dictInsert` over the update list. -/
def dictUpdate (d : List (String × String)) : List (String × String) → List (String × String)
  | [] => d
  | (k, v) :: rest => dictUpdate (dictInsert d k v) rest

/-- Value bound to a key after applying an update list left to right
(the last binding for the key wins). -/
def lastVal : List (String × String) → String → Option String
  | [], _ => none
  | (k', v') :: rest, k =>
      match lastVal rest k with
      | some v => some v
      | none => if k' == k then some v' else none

/-- The subset of `OIDCConfig` read by `get_redirect_url`. -/
structure OIDCConfig where
  client_id : String
  redirect_url : String
  scopes : List String
  login_params : List (String × String)
  login_url : String

/-- `OIDCProvider.get_redirect_url`, embedded up to the final
`urlencode`/string interpolation (percent-encoding of the query string is
done by the external `urllib` library): the ordered query-parameter
mapping from which the URL is built. -/
def get_redirect_url_params (config : OIDCConfig) (state : String) :
    List (String × String) :=
  let scopes := ["openid"] ++ config.scopes
  let params := [
    ("response_type", "code"),
    ("client_id", config.client_id),
    ("redirect_uri", config.redirect_url),
    ("scope", String.intercalate " " scopes),
    ("state", state)]
  dictUpdate params config.login_params

/- ---------------------------------------------------------------------
   `OIDCProvider.create_user_info` response handling
   (src/gafaelfawr/providers/oidc.py)
--------------------------------------------------------------------- -/

/-- Outcome of the token-endpoint response handling in
`create_user_info`.  `httpError` models `r.raise_for_status()`,
`oidcError` models `raise OIDCError(msg)`, `fieldKeyError` models an
untyped Python `KeyError` from a subscript on the parsed body, and
`idToken` is the successful fall-through carrying `result["id_token"]`
to the verifier. -/
inductive TokenResponseOutcome where
  | httpError (status : Nat)
  | oidcError (msg : String)
  | fieldKeyError (field : String)
  | idToken (encoded : String)
deriving DecidableEq, Repr

/-- The response-handling block of `create_user_info`.  The HTTP response
is given by its status code and its body parsed as JSON: `none` when
`r.json()` raises, `some result` otherwise, with the JSON object modelled
as an association list of string fields.  Note the non-200 branch with an
`error` field reads `result["error_description"]` unconditionally, and
the non-JSON 200 branch raises the literal message
`Response from \x7btoken_url\x7d not valid JSON` (the Python string is
not an f-string, so the placeholder is not interpolated). -/
def handleTokenResponse (tokenUrl : String) (status : Nat)
    (body : Option (List (String × String))) : TokenResponseOutcome :=
  match body with
  | none =>
      if status ≠ 200 then .httpError status
      else .oidcError "Response from \x7btoken_url\x7d not valid JSON"
  | some result =>
      if status ≠ 200 then
        match result.lookup "error" with
        | some e =>
            match result.lookup "error_description" with
            | some d => .oidcError (e ++ ": " ++ d)
            | none => .fieldKeyError "error_description"
        | none => .httpError status
      else
        match result.lookup "id_token" with
        | none => .oidcError ("No id_token in token reply from " ++ tokenUrl)
        | some t => .idToken t

/- ---------------------------------------------------------------------
   Data model: tokens (src/gafaelfawr/models/token.py, via its use in
   services/token_cache.py)
--------------------------------------------------------------------- -/

/-- An opaque bearer token: a `(key, secret)` pair (canonical string form
`gt-<key>.<secret>`). -/
structure Token where
  key : String
  secret : String
deriving DecidableEq, Repr

/-- Token types. -/
inductive TokenType where
  | session
  | user
  | notebook
  | internal
  | service
deriving DecidableEq, Repr

/-- Metadata associated with a token in the key-value store.  Timestamps
are UTC seconds as integers (the spec fixes second precision). -/
structure TokenData where
  token : Token
  username : String
  token_type : TokenType
  scopes : List String
  created : Int
  expires : Option Int
  name : Option String
  email : Option String
  uid : Option Int
  groups : List String
deriving DecidableEq, Repr

/-- A row of the relational `token` table, as written by
`TokenDatabaseStore.add`. -/
structure DbRow where
  key : String
  username : String
  token_type : TokenType
  parent : Option String
  service : Option String
  scopes : List String
  created : Int
  expires : Option Int
deriving DecidableEq, Repr

/-- A `TokenChangeHistoryEntry` as constructed by the token cache
service (the `action` is always `create` here). -/
structure HistoryEntry where
  token : String
  username : String
  token_type : TokenType
  parent : Option String
  scopes : List String
  service : Option String
  expires : Option Int
  actor : String
  action : String
  ip_address : String
  event_time : Int
deriving DecidableEq, Repr

/- ---------------------------------------------------------------------
   Child-token cache service (src/gafaelfawr/services/token_cache.py)
--------------------------------------------------------------------- -/

/-- Insertion of a string into a sorted list, for sorting cache-key
scopes. -/
def insertSorted (s : String) : List String → List String
  | [] => [s]
  | t :: rest => if s ≤ t then s :: t :: rest else t :: insertSorted s rest

/-- Sort a scope list (the internal-token cache key uses sorted
scopes). -/
def sortScopes : List String → List String
  | [] => []
  | s :: rest => insertSorted s (sortScopes rest)

/-- Modelled from the spec: the key of the in-memory internal-token
cache (`gafaelfawr/cache.py` is not included in the source tree).  Per
the spec, internal tokens are cached under
`(parent_token_key, parent_expires, service, sorted_scopes)`. -/
def internalCacheKey (td : TokenData) (service : String) (scopes : List String) :
    String × Option Int × String × List String :=
  (td.token.key, td.expires, service, sortScopes scopes)

/-- Modelled from the spec: the key of the in-memory notebook-token
cache, `(parent_token_key, parent_expires)`. -/
def notebookCacheKey (td : TokenData) : String × Option Int :=
  (td.token.key, td.expires)

/-- The mutable stores visible to the token cache service: the two
in-memory caches, the Redis key-value store (keyed by token key), the
relational token table, and the append-only change history. -/
structure TokenStores where
  internalCache : String × Option Int × String × List String → Option Token
  notebookCache : String × Option Int → Option Token
  redis : String → Option TokenData
  db : List DbRow
  history : List HistoryEntry

/-- The external collaborators of the token cache service: the injected
clock (`current_datetime`), the configured child-token lifetime in
seconds, the random token mint (`Token()`), and the two relational
queries `get_internal_token_key` and `get_notebook_token_key` (their
store lives outside the source tree, so their results are supplied as
functions).  The minimum-expiration argument of the queries is a
rational because Python computes it with float division. -/
structure TokenCacheEnv where
  now : Int
  token_lifetime : Int
  freshToken : Token
  dbInternalKey : TokenData → String → List String → ℚ → Option String
  dbNotebookKey : TokenData → ℚ → Option String

/-- Modelled from the spec: `InternalTokenCache.get`. -/
def internalCacheGet (st : TokenStores) (td : TokenData) (service : String)
    (scopes : List String) : Option Token :=
  st.internalCache (internalCacheKey td service scopes)

/-- Modelled from the spec: `InternalTokenCache.store`. -/
def internalCacheStore (st : TokenStores) (td : TokenData) (service : String)
    (scopes : List String) (tok : Token) : TokenStores :=
  { st with internalCache := fun k =>
      if k = internalCacheKey td service scopes then some tok
      else st.internalCache k }

/-- Modelled from the spec: `NotebookTokenCache.get`. -/
def notebookCacheGet (st : TokenStores) (td : TokenData) : Option Token :=
  st.notebookCache (notebookCacheKey td)

/-- Modelled from the spec: `NotebookTokenCache.store`. -/
def notebookCacheStore (st : TokenStores) (td : TokenData) (tok : Token) :
    TokenStores :=
  { st with notebookCache := fun k =>
      if k = notebookCacheKey td then some tok
      else st.notebookCache k }

/-- `TokenRedisStore.get_data`: the token metadata stored under the
token's key. -/
def redisGetData (st : TokenStores) (tok : Token) : Option TokenData :=
  st.redis tok.key

/-- `TokenCacheService._minimum_expiration`:
`now + token_lifetime / 2` (a float division in Python, hence a rational
here), clamped down to the parent's expiration. -/
def minimum_expiration (env : TokenCacheEnv) (td : TokenData) : ℚ :=
  let minExpires : ℚ := (env.now : ℚ) + (env.token_lifetime : ℚ) / 2
  match td.expires with
  | some pe => if minExpires > (pe : ℚ) then (pe : ℚ) else minExpires
  | none => minExpires

/-- `TokenCacheService._is_token_valid`: a cached child token is valid
iff its data is still in Redis, its stored scopes are a subset of the
requested scopes when those are supplied, and (when it expires) the
remaining lifetime has not dropped below half of the original lifetime
(`remaining.total_seconds() < lifetime.total_seconds() / 2` is the
invalidity test; the float division is modelled exactly in ℚ). -/
def is_token_valid (redisGet : Token → Option TokenData) (now : Int)
    (tok : Token) (scopes : Option (List String)) : Bool :=
  match redisGet tok with
  | none => false
  | some data =>
    if (match scopes with
        | some ss => !(data.scopes.all fun s => ss.contains s)
        | none => false) then
      false
    else
      match data.expires with
      | none => true
      | some expires =>
        let lifetime : Int := expires - data.created
        let remaining : Int := expires - now
        if (remaining : ℚ) < (lifetime : ℚ) / 2 then false else true

/-- The fresh-mint tail of `TokenCacheService._create_internal_token`:
mint a token, compute `created = now` and
`expires = created + token_lifetime` capped at the parent's expiration,
build the `TokenData` and history entry, and write Redis, the database
row, and the history entry in that order. -/
def create_internal_token_new (env : TokenCacheEnv) (st : TokenStores)
    (td : TokenData) (service : String) (scopes : List String) (ip : String) :
    Token × TokenStores :=
  let token := env.freshToken
  let created := env.now
  let expires0 := created + env.token_lifetime
  let expires :=
    match td.expires with
    | some pe => if pe < expires0 then pe else expires0
    | none => expires0
  let data : TokenData := {
    token := token
    username := td.username
    token_type := .internal
    scopes := scopes
    created := created
    expires := some expires
    name := td.name
    email := td.email
    uid := td.uid
    groups := td.groups }
  let row : DbRow := {
    key := token.key
    username := data.username
    token_type := .internal
    parent := some td.token.key
    service := some service
    scopes := scopes
    created := created
    expires := some expires }
  let entry : HistoryEntry := {
    token := token.key
    username := data.username
    token_type := .internal
    parent := some td.token.key
    scopes := scopes
    service := some service
    expires := some expires
    actor := td.username
    action := "create"
    ip_address := ip
    event_time := created }
  (token, { st with
    redis := fun k => if k = token.key then some data else st.redis k
    db := st.db ++ [row]
    history := st.history ++ [entry] })

/-- `TokenCacheService._create_internal_token`: first look for a
matching child in the relational store; when found and its data is also
in Redis, return that token without writing anything; otherwise mint a
new one. -/
def create_internal_token (env : TokenCacheEnv) (st : TokenStores)
    (td : TokenData) (service : String) (scopes : List String) (ip : String) :
    Token × TokenStores :=
  match env.dbInternalKey td service scopes (minimum_expiration env td) with
  | some key =>
    match st.redis key with
    | some data => (data.token, st)
    | none => create_internal_token_new env st td service scopes ip
  | none => create_internal_token_new env st td service scopes ip

/-- The miss path of `get_internal_token`: create (or find) a token via
`_create_internal_token`, then store it into the in-memory cache. -/
def issueInternal (env : TokenCacheEnv) (st : TokenStores) (td : TokenData)
    (service : String) (scopes : List String) (ip : String) :
    Token × TokenStores :=
  let r := create_internal_token env st td service scopes ip
  (r.1, internalCacheStore r.2 td service scopes r.1)

/-- `TokenCacheService.get_internal_token` (the body under the per-user
lock): return the cached token when present and valid, else fall through
to issuance and cache whatever token that returns. -/
def get_internal_token (env : TokenCacheEnv) (st : TokenStores)
    (td : TokenData) (service : String) (scopes : List String) (ip : String) :
    Token × TokenStores :=
  match internalCacheGet st td service scopes with
  | some token =>
    if is_token_valid (redisGetData st) env.now token (some scopes) then
      (token, st)
    else issueInternal env st td service scopes ip
  | none => issueInternal env st td service scopes ip

/-- The fresh-mint tail of `TokenCacheService._create_notebook_token`:
like the internal variant but with the parent's scopes and no service. -/
def create_notebook_token_new (env : TokenCacheEnv) (st : TokenStores)
    (td : TokenData) (ip : String) : Token × TokenStores :=
  let token := env.freshToken
  let created := env.now
  let expires0 := created + env.token_lifetime
  let expires :=
    match td.expires with
    | some pe => if pe < expires0 then pe else expires0
    | none => expires0
  let data : TokenData := {
    token := token
    username := td.username
    token_type := .notebook
    scopes := td.scopes
    created := created
    expires := some expires
    name := td.name
    email := td.email
    uid := td.uid
    groups := td.groups }
  let row : DbRow := {
    key := token.key
    username := data.username
    token_type := .notebook
    parent := some td.token.key
    service := none
    scopes := data.scopes
    created := created
    expires := some expires }
  let entry : HistoryEntry := {
    token := token.key
    username := data.username
    token_type := .notebook
    parent := some td.token.key
    scopes := data.scopes
    service := none
    expires := some expires
    actor := td.username
    action := "create"
    ip_address := ip
    event_time := created }
  (token, { st with
    redis := fun k => if k = token.key then some data else st.redis k
    db := st.db ++ [row]
    history := st.history ++ [entry] })

/-- `TokenCacheService._create_notebook_token`. -/
def create_notebook_token (env : TokenCacheEnv) (st : TokenStores)
    (td : TokenData) (ip : String) : Token × TokenStores :=
  match env.dbNotebookKey td (minimum_expiration env td) with
  | some key =>
    match st.redis key with
    | some data => (data.token, st)
    | none => create_notebook_token_new env st td ip
  | none => create_notebook_token_new env st td ip

/-- The miss path of `get_notebook_token`. -/
def issueNotebook (env : TokenCacheEnv) (st : TokenStores) (td : TokenData)
    (ip : String) : Token × TokenStores :=
  let r := create_notebook_token env st td ip
  (r.1, notebookCacheStore r.2 td r.1)

/-- `TokenCacheService.get_notebook_token` (the body under the per-user
lock). -/
def get_notebook_token (env : TokenCacheEnv) (st : TokenStores)
    (td : TokenData) (ip : String) : Token × TokenStores :=
  match notebookCacheGet st td with
  | some token =>
    if is_token_valid (redisGetData st) env.now token none then
      (token, st)
    else issueNotebook env st td ip
  | none => issueNotebook env st td ip

/- ---------------------------------------------------------------------
   Downstream OIDC service: issue_code / redeem_code
   (services/oidc.py is not included in the source tree; only its tests
   are, so the service is modelled from the spec)
--------------------------------------------------------------------- -/

/-- A configured OIDC relying party (`OIDCClient`). -/
structure OIDCClientCfg where
  client_id : String
  client_secret : String
deriving DecidableEq, Repr

/-- An `OIDCAuthorizationCode`: same shape as `Token`, prefix `gc-`. -/
structure OIDCAuthorizationCode where
  key : String
  secret : String
deriving DecidableEq, Repr

/-- The envelope stored (AEAD-encrypted by the external crypto library)
under `oidc:<code.key>` in the key-value store. -/
structure OIDCCodeEnvelope where
  code : OIDCAuthorizationCode
  client_id : String
  redirect_uri : String
  token : Token
  created_at : Int
deriving DecidableEq, Repr

/-- Downstream OIDC protocol errors. -/
inductive OIDCServiceError where
  | invalidClient
  | invalidGrant
  | unauthorizedClient
deriving DecidableEq, Repr

/-- The `oidc:` keyspace of the key-value store, keyed by the code key
(the `oidc:` prefix is constant and elided). -/
def OIDCStore : Type := String → Option OIDCCodeEnvelope

/-- Modelled from the spec: `OIDCService.issue_code` (§4.4;
`services/oidc.py` is not in the source tree).  If the client id is not
configured, fail with `UnauthorizedClient`; otherwise mint a fresh code,
build the envelope, and store it under the code's key (encryption and
the TTL are handled by external collaborators). -/
def issue_code (clients : List OIDCClientCfg) (kv : OIDCStore) (now : Int)
    (freshCode : OIDCAuthorizationCode) (client_id redirect_uri : String)
    (token : Token) : Except OIDCServiceError OIDCAuthorizationCode × OIDCStore :=
  if clients.any (fun c => c.client_id == client_id) then
    let envl : OIDCCodeEnvelope := {
      code := freshCode
      client_id := client_id
      redirect_uri := redirect_uri
      token := token
      created_at := now }
    (.ok freshCode, fun k => if k = freshCode.key then some envl else kv k)
  else
    (.error .unauthorizedClient, kv)

/-- Modelled from the spec: `OIDCService.redeem_code` (§4.4;
`services/oidc.py` is not in the source tree).  In order: unknown client
id or wrong client secret fail with `InvalidClient`; a missing stored
envelope or a code-secret mismatch fails with `InvalidGrant`; past the
secret check the entry is deleted unconditionally (one-shot); an
envelope client-id or redirect-uri mismatch, and a missing or expired
referenced session, fail with `InvalidGrant`; otherwise the referenced
session token is handed to the signing step (abstracted here as the
success value). -/
def redeem_code (clients : List OIDCClientCfg)
    (sessions : String → Option TokenData) (now : Int) (kv : OIDCStore)
    (client_id client_secret redirect_uri : String)
    (code : OIDCAuthorizationCode) :
    Except OIDCServiceError Token × OIDCStore :=
  match clients.find? (fun c => c.client_id == client_id) with
  | none => (.error .invalidClient, kv)
  | some client =>
    if client.client_secret ≠ client_secret then (.error .invalidClient, kv)
    else
      match kv code.key with
      | none => (.error .invalidGrant, kv)
      | some envl =>
        if envl.code.secret ≠ code.secret then (.error .invalidGrant, kv)
        else
          let kv' : OIDCStore := fun k => if k = code.key then none else kv k
          if envl.client_id ≠ client_id ∨ envl.redirect_uri ≠ redirect_uri then
            (.error .invalidGrant, kv')
          else
            match sessions envl.token.key with
            | none => (.error .invalidGrant, kv')
            | some td =>
              match td.expires with
              | some e =>
                  if e ≤ now then (.error .invalidGrant, kv')
                  else (.ok envl.token, kv')
              | none => (.ok envl.token, kv')

/- ---------------------------------------------------------------------
   Concrete fixtures used to instantiate the theorems below
--------------------------------------------------------------------- -/

/-- A JWKS entry with kid `k1` and fields `e1`/`n1`. -/
def jwkFirst : JWK := ⟨[("kid", "k1"), ("alg", "RS256"), ("e", "e1"), ("n", "n1")]⟩

/-- A second JWKS entry with the same kid `k1` but fields `e2`/`n2`. -/
def jwkSecond : JWK := ⟨[("kid", "k1"), ("alg", "RS256"), ("e", "e2"), ("n", "n2")]⟩

/-- A malformed JWKS entry with no `kid` field. -/
def jwkNoKid : JWK := ⟨[("alg", "RS256")]⟩

/-- A JWKS entry with a `kid` but no `alg` field. -/
def jwkNoAlg : JWK := ⟨[("kid", "k1")]⟩

/-- An example provider configuration whose `login_params` rebinds
`response_type`. -/
def cfgOverride : OIDCConfig := {
  client_id := "cid"
  redirect_url := "https://app.example.com/login"
  scopes := []
  login_params := [("response_type", "token")]
  login_url := "https://login.example.com/auth" }

/-- An example provider configuration with empty `login_params`. -/
def cfgPlain : OIDCConfig := {
  client_id := "cid"
  redirect_url := "https://app.example.com/login"
  scopes := []
  login_params := []
  login_url := "https://login.example.com/auth" }

/-- A cached child token sitting exactly at its half-life: created at 0,
expiring at 100, evaluated at `now = 50`. -/
def tdHalf : TokenData := {
  token := ⟨"childkey", "childsecret"⟩
  username := "someuser"
  token_type := .internal
  scopes := ["read"]
  created := 0
  expires := some 100
  name := none
  email := none
  uid := none
  groups := [] }

/-- A Redis view containing exactly `tdHalf`. -/
def redisHalf : Token → Option TokenData :=
  fun t => if t = tdHalf.token then some tdHalf else none

/-- An example parent (session) token data. -/
def tdParent : TokenData := {
  token := ⟨"parentkey", "parentsecret"⟩
  username := "someuser"
  token_type := .session
  scopes := ["read"]
  created := 0
  expires := some 7200
  name := none
  email := none
  uid := none
  groups := [] }

/-- The data of a matching child token already present in the relational
store (under key `foundkey`) and in Redis. -/
def tdFound : TokenData := {
  token := ⟨"foundkey", "foundsecret"⟩
  username := "someuser"
  token_type := .internal
  scopes := ["read"]
  created := 0
  expires := some 3600
  name := none
  email := none
  uid := none
  groups := [] }

/-- Stores for the database-hit scenario: both in-memory caches empty,
Redis holding the found child's data. -/
def stDbHit : TokenStores := {
  internalCache := fun _ => none
  notebookCache := fun _ => none
  redis := fun k => if k = "foundkey" then some tdFound else none
  db := []
  history := [] }

/-- Environment for the database-hit scenario: the relational queries
report the existing child `foundkey`. -/
def envDbHit : TokenCacheEnv := {
  now := 0
  token_lifetime := 3600
  freshToken := ⟨"newkey", "newsecret"⟩
  dbInternalKey := fun _ _ _ _ => some "foundkey"
  dbNotebookKey := fun _ _ => some "foundkey" }

/-- Environment for the miss scenarios: the relational queries find
nothing. -/
def envMiss : TokenCacheEnv := {
  now := 0
  token_lifetime := 3600
  freshToken := ⟨"newkey", "newsecret"⟩
  dbInternalKey := fun _ _ _ _ => none
  dbNotebookKey := fun _ _ => none }

/-- A valid cached child token for the cache-hit scenario. -/
def tdCachedChild : TokenData := {
  token := ⟨"cachedkey", "cachedsecret"⟩
  username := "someuser"
  token_type := .internal
  scopes := ["read"]
  created := 0
  expires := some 7200
  name := none
  email := none
  uid := none
  groups := [] }

/-- A cached child token whose scopes are not a subset of the requested
scopes. -/
def tdCachedWide : TokenData := {
  token := ⟨"widekey", "widesecret"⟩
  username := "someuser"
  token_type := .internal
  scopes := ["admin"]
  created := 0
  expires := some 7200
  name := none
  email := none
  uid := none
  groups := [] }

/-- Stores for the cache-hit scenario: the internal cache holds
`tdCachedChild.token` under the parent's key, and Redis has its data. -/
def stCacheHit : TokenStores := {
  internalCache := fun k =>
    if k = internalCacheKey tdParent "svc" ["read"] then some tdCachedChild.token
    else none
  notebookCache := fun _ => none
  redis := fun k => if k = "cachedkey" then some tdCachedChild else none
  db := []
  history := [] }

/-- Stores for the scope-mismatch scenario: the internal cache holds
`tdCachedWide.token` under the parent's key, and Redis has its data. -/
def stCacheWide : TokenStores := {
  internalCache := fun k =>
    if k = internalCacheKey tdParent "svc" ["read"] then some tdCachedWide.token
    else none
  notebookCache := fun _ => none
  redis := fun k => if k = "widekey" then some tdCachedWide else none
  db := []
  history := [] }

/-- The configured downstream clients for the redemption scenario. -/
def clientsEx : List OIDCClientCfg :=
  [⟨"client-1", "client-1-secret"⟩, ⟨"client-2", "client-2-secret"⟩]

/-- The session token referenced by the issued code. -/
def sessionToken : Token := ⟨"sessionkey", "sessionsecret"⟩

/-- The session data referenced by the issued code (no expiration). -/
def sessionData : TokenData := {
  token := sessionToken
  username := "someuser"
  token_type := .session
  scopes := ["read"]
  created := 0
  expires := none
  name := none
  email := none
  uid := none
  groups := [] }

/-- The session store for the redemption scenario. -/
def sessionsEx : String → Option TokenData :=
  fun k => if k = "sessionkey" then some sessionData else none

/-- The authorization code issued in the redemption scenario. -/
def codeEx : OIDCAuthorizationCode := ⟨"codekey", "codesecret"⟩

/-- The key-value store right after `issue_code` stored `codeEx` for
`client-2`. -/
def kvIssued : OIDCStore :=
  (issue_code clientsEx (fun _ => none) 0 codeEx "client-2"
    "https://example.com/" sessionToken).2

/-- The key-value store right after the first (successful) redemption of
`codeEx`. -/
def kvRedeemed : OIDCStore :=
  (redeem_code clientsEx sessionsEx 0 kvIssued "client-2" "client-2-secret"
    "https://example.com/" codeEx).2

/- ---------------------------------------------------------------------
   Helper lemmas
--------------------------------------------------------------------- -/

/-- Looking a key up after a single-key dictionary update. -/
theorem lookup_dictInsert (d : List (String × String)) (k' v' k : String) :
    (dictInsert d k' v').lookup k = if k = k' then some v' else d.lookup k := by
  induction d with
  | nil =>
    by_cases h : k = k'
    · simp [dictInsert, List.lookup, h]
    · have hb : (k == k') = false := beq_eq_false_iff_ne.mpr h
      simp [dictInsert, List.lookup, hb, h]
  | cons p rest ih =>
    by_cases ha : p.1 = k'
    · have hba : (p.1 == k') = true := beq_iff_eq.mpr ha
      by_cases hk : k = k'
      · simp [dictInsert, List.lookup, hba, hk]
      · have hb : (k == k') = false := beq_eq_false_iff_ne.mpr hk
        have hbp : (k == p.1) = false :=
          beq_eq_false_iff_ne.mpr (fun h' => hk (h'.trans ha))
        simp [dictInsert, List.lookup, hba, hb, hbp, hk]
    · have hba : (p.1 == k') = false := beq_eq_false_iff_ne.mpr ha
      by_cases hk : k = k'
      · subst hk
        have hbp : (k == p.1) = false :=
          beq_eq_false_iff_ne.mpr (fun h' => ha h'.symm)
        simp [dictInsert, List.lookup, hba, hbp, ih]
      · simp [dictInsert, List.lookup, hba, hk, ih]

/-- Looking a key up after a dictionary update: the last binding in the
update list wins, else the base dictionary answers. -/
theorem lookup_dictUpdate (u d : List (String × String)) (k : String) :
    (dictUpdate d u).lookup k =
      match lastVal u k with
      | some v => some v
      | none => d.lookup k := by
  induction u generalizing d with
  | nil => simp [dictUpdate, lastVal]
  | cons p rest ih =>
    rcases p with ⟨k', v'⟩
    simp only [dictUpdate, lastVal]
    rw [ih]
    rcases h : lastVal rest k with _ | v
    · rw [lookup_dictInsert]
      by_cases hk : k' = k
      · have hb : (k' == k) = true := beq_iff_eq.mpr hk
        simp [hk.symm, hb]
      · have hb : (k' == k) = false := beq_eq_false_iff_ne.mpr hk
        have hk' : ¬k = k' := fun h' => hk h'.symm
        simp [hb, hk']
    · rfl

/-- When every scanned JWKS entry has a `kid` field, the scan succeeds
and the accumulator ends at the last matching entry (or stays at its
initial value when none matches). -/
theorem scanKeys_all_kids (keyId : String) (keys : List JWK) (acc : Option JWK)
    (h : ∀ k ∈ keys, (JWK.find k "kid").isSome) :
    scanKeys keyId acc keys = .ok
      (match keys.reverse.find? (kidMatches keyId) with
       | some k => some k
       | none => acc) := by
  induction keys generalizing acc with
  | nil => simp [scanKeys]
  | cons k rest ih =>
    obtain ⟨kid, hkid⟩ := Option.isSome_iff_exists.mp (h k (by simp))
    have hrest : ∀ k' ∈ rest, (JWK.find k' "kid").isSome := fun k' hk' =>
      h k' (by simp [hk'])
    simp only [scanKeys, hkid]
    rw [ih _ hrest, List.reverse_cons, List.find?_append]
    rcases hf : rest.reverse.find? (kidMatches keyId) with _ | k'
    · have hm : kidMatches keyId k = (keyId == kid) := by simp [kidMatches, hkid]
      rcases he : keyId == kid with _ | _ <;>
        simp [hf, List.find?, hm, he, Option.or]
    · simp [hf, Option.or]

/-- When some scanned JWKS entry lacks a `kid` field, the scan raises
`KeyError` on `kid`. -/
theorem scanKeys_missing_kid (keyId : String) (keys : List JWK) (acc : Option JWK)
    (h : ∃ k ∈ keys, JWK.find k "kid" = none) :
    scanKeys keyId acc keys = .error (.keyError "kid") := by
  induction keys generalizing acc with
  | nil => simp at h
  | cons k rest ih =>
    rcases hk : JWK.find k "kid" with _ | kid
    · simp [scanKeys, hk]
    · simp only [scanKeys, hk]
      apply ih
      rcases h with ⟨k', hmem, hnone⟩
      rcases List.mem_cons.mp hmem with rfl | hmem'
      · rw [hk] at hnone
        exact absurd hnone (by simp)
      · exact ⟨k', hmem', hnone⟩

/-- A successful `redeem_code` deletes the stored envelope: the
resulting key-value store has no entry under the code's key. -/
theorem redeem_code_ok_deletes
    (clients : List OIDCClientCfg) (sessions : String → Option TokenData)
    (now : Int) (kv : OIDCStore) (cid csec uri : String)
    (code : OIDCAuthorizationCode) (tok : Token) (kv2 : OIDCStore)
    (h : redeem_code clients sessions now kv cid csec uri code = (.ok tok, kv2)) :
    kv2 code.key = none := by
  simp only [redeem_code] at h
  rcases hfind : clients.find? (fun c => c.client_id == cid) with _ | client <;>
    simp only [hfind] at h
  · simp at h
  · by_cases hsec : client.client_secret ≠ csec
    · rw [if_pos hsec] at h
      simp at h
    · rw [if_neg hsec] at h
      rcases hkv : kv code.key with _ | envl <;> simp only [hkv] at h
      · simp at h
      · by_cases hcs : envl.code.secret ≠ code.secret
        · rw [if_pos hcs] at h
          simp at h
        · rw [if_neg hcs] at h
          by_cases hmm : envl.client_id ≠ cid ∨ envl.redirect_uri ≠ uri
          · rw [if_pos hmm] at h
            simp at h
          · rw [if_neg hmm] at h
            rcases hses : sessions envl.token.key with _ | td <;>
              simp only [hses] at h
            · simp at h
            · rcases hexp : td.expires with _ | e <;> simp only [hexp] at h
              · have h2 : (fun k => if k = code.key then none else kv k) = kv2 :=
                  congrArg Prod.snd h
                rw [← h2]
                simp
              · by_cases hle : e ≤ now
                · rw [if_pos hle] at h
                  simp at h
                · rw [if_neg hle] at h
                  have h2 : (fun k => if k = code.key then none else kv k) = kv2 :=
                    congrArg Prod.snd h
                  rw [← h2]
                  simp

/-- When no envelope is stored under the code's key, `redeem_code`
fails: with `InvalidClient` when the credential checks fail, otherwise
with `InvalidGrant`. -/
theorem redeem_code_absent_any
    (clients : List OIDCClientCfg) (sessions : String → Option TokenData)
    (now : Int) (kv : OIDCStore) (cid csec uri : String)
    (code : OIDCAuthorizationCode) (h : kv code.key = none) :
    (redeem_code clients sessions now kv cid csec uri code).1
        = .error .invalidClient ∨
    (redeem_code clients sessions now kv cid csec uri code).1
        = .error .invalidGrant := by
  rcases hfind : clients.find? (fun c => c.client_id == cid) with _ | client
  · left
    simp [redeem_code, hfind]
  · by_cases hsec : client.client_secret ≠ csec
    · left
      simp [redeem_code, hfind, if_pos hsec]
    · right
      simp [redeem_code, hfind, if_neg hsec, h]

/-- When no envelope is stored under the code's key and the client
credentials are valid, `redeem_code` fails with `InvalidGrant`. -/
theorem redeem_code_absent_valid
    (clients : List OIDCClientCfg) (sessions : String → Option TokenData)
    (now : Int) (kv : OIDCStore) (cid csec uri : String)
    (code : OIDCAuthorizationCode) (client : OIDCClientCfg)
    (h : kv code.key = none)
    (hc : clients.find? (fun c => c.client_id == cid) = some client)
    (hs : client.client_secret = csec) :
    (redeem_code clients sessions now kv cid csec uri code).1
        = .error .invalidGrant := by
  simp [redeem_code, hc, hs, h]

/- ---------------------------------------------------------------------
   Claim C2
--------------------------------------------------------------------- -/

/-- C2 counterexample: after the first successful redemption of a code,
a second `redeem_code` call with the same code but unknown client
credentials fails with `InvalidClient`, not `InvalidGrant` — the claim's
"fails with InvalidGrant regardless of the client credentials presented"
does not hold. -/
theorem redeem_code_second_attempt_credentials_counterexample :
    (redeem_code clientsEx sessionsEx 0 kvIssued "client-2" "client-2-secret"
        "https://example.com/" codeEx).1 = .ok sessionToken ∧
    (redeem_code clientsEx sessionsEx 0 kvRedeemed "unknown" "x"
        "https://example.com/" codeEx).1 = .error .invalidClient ∧
    (.error .invalidClient : Except OIDCServiceError Token)
        ≠ .error .invalidGrant := by
  refine ⟨rfl, rfl, by simp⟩

/-- C2 (amended, spec-modelled): for every authorization code issued by
`issue_code`, `redeem_code` succeeds at most once for that code: after
one successful redemption the K/V entry `oidc:<code.key>` is deleted,
and every subsequent `redeem_code` call with the same code never
succeeds — it fails with `InvalidGrant` whenever the presented client
credentials are valid, and with `InvalidClient` when they are not. -/
theorem redeem_code_one_shot
    (clients : List OIDCClientCfg) (sessions : String → Option TokenData)
    (now0 now : Int) (kv0 : OIDCStore) (fresh : OIDCAuthorizationCode)
    (cid0 uri0 : String) (tok0 : Token) (kv1 : OIDCStore)
    (cid csec uri : String) (tok : Token) (kv2 : OIDCStore)
    (_hissue : issue_code clients kv0 now0 fresh cid0 uri0 tok0 = (.ok fresh, kv1))
    (hredeem : redeem_code clients sessions now kv1 cid csec uri fresh
        = (.ok tok, kv2)) :
    kv2 fresh.key = none ∧
    (∀ cid2 csec2 uri2,
      (redeem_code clients sessions now kv2 cid2 csec2 uri2 fresh).1
          = .error .invalidClient ∨
      (redeem_code clients sessions now kv2 cid2 csec2 uri2 fresh).1
          = .error .invalidGrant) ∧
    (∀ cid2 csec2 uri2 client,
      clients.find? (fun c => c.client_id == cid2) = some client →
      client.client_secret = csec2 →
      (redeem_code clients sessions now kv2 cid2 csec2 uri2 fresh).1
          = .error .invalidGrant) := by
  have hdel : kv2 fresh.key = none :=
    redeem_code_ok_deletes clients sessions now kv1 cid csec uri fresh tok kv2
      hredeem
  refine ⟨hdel, ?_, ?_⟩
  · intro cid2 csec2 uri2
    exact redeem_code_absent_any clients sessions now kv2 cid2 csec2 uri2
      fresh hdel
  · intro cid2 csec2 uri2 client hc hs
    exact redeem_code_absent_valid clients sessions now kv2 cid2 csec2 uri2
      fresh client hdel hc hs

/-- C2 witness: in the concrete scenario the entry is gone after the
first redemption and a second attempt with the valid `client-2`
credentials fails with `InvalidGrant`. -/
theorem redeem_code_one_shot_witness :
    kvRedeemed codeEx.key = none ∧
    (redeem_code clientsEx sessionsEx 0 kvRedeemed "client-2"
        "client-2-secret" "https://example.com/" codeEx).1
      = .error .invalidGrant := by
  have h := redeem_code_one_shot clientsEx sessionsEx 0 0 (fun _ => none)
    codeEx "client-2" "https://example.com/" sessionToken kvIssued
    "client-2" "client-2-secret" "https://example.com/" sessionToken
    kvRedeemed rfl rfl
  exact ⟨h.1, h.2.2 "client-2" "client-2-secret" "https://example.com/"
    ⟨"client-2", "client-2-secret"⟩ rfl rfl⟩

/- ---------------------------------------------------------------------
   Claim C1
--------------------------------------------------------------------- -/

/-- C1 counterexample: the JWKS linear scan in `_get_key_as_pem` does
not select the first key whose `kid` matches.  With two keys sharing
`kid = k1`, the `e`/`n` fields used are those of the second (last)
entry, not the first. -/
theorem get_key_as_pem_first_match_counterexample :
    get_key_as_pem "RS256" "https://issuer.example.com/" "k1"
        [jwkFirst, jwkSecond] = .ok ("e2", "n2") ∧
    (("e2", "n2") : String × String) ≠ ("e1", "n1") := by
  constructor
  · rfl
  · decide

/-- C1 (amended): for every JWKS key list whose entries all carry a
`kid` field and every key id, the key lookup performed by the verifier
(`_get_key_as_pem`) linear-scans the list and selects the **last** key
whose `kid` field equals the requested id (the loop overwrites on every
match); the `alg`, `e`, and `n` fields used are those of that last
matching entry. -/
theorem get_key_as_pem_selects_last_match
    (algorithm issuerUrl keyId : String) (keys : List JWK) (klast : JWK)
    (e n : String)
    (hkids : ∀ k ∈ keys, (JWK.find k "kid").isSome)
    (hlast : keys.reverse.find? (kidMatches keyId) = some klast)
    (halg : JWK.find klast "alg" = some algorithm)
    (he : JWK.find klast "e" = some e)
    (hn : JWK.find klast "n" = some n) :
    get_key_as_pem algorithm issuerUrl keyId keys = .ok (e, n) := by
  unfold get_key_as_pem
  rw [scanKeys_all_kids keyId keys none hkids, hlast]
  simp [halg, he, hn]

/-- C1 witness: the amended theorem applied to the duplicate-`kid`
list, returning the second entry's fields. -/
theorem get_key_as_pem_selects_last_match_witness :
    get_key_as_pem "RS256" "https://issuer.example.com/" "k1"
      [jwkFirst, jwkSecond] = .ok ("e2", "n2") :=
  get_key_as_pem_selects_last_match "RS256" "https://issuer.example.com/" "k1"
    [jwkFirst, jwkSecond] jwkSecond "e2" "n2"
    (by decide) (by decide) (by decide) (by decide) (by decide)

/- ---------------------------------------------------------------------
   Claim C10
--------------------------------------------------------------------- -/

/-- C10: in the verifier's key lookup, a malformed JWKS entry escapes
the typed error contract.  If any entry in the fetched list lacks a
`kid` field the result is an untyped `KeyError` on `kid`; the typed
`UnknownKeyIdError`/`UnknownAlgorithmError` arise only when every
scanned entry has a `kid`; and when the matched (last-matching) entry
lacks `alg`, `e`, or `n`, the result is an untyped `KeyError` on that
field rather than a typed error. -/
theorem get_key_as_pem_keyError_contract
    (algorithm issuerUrl keyId : String) (keys : List JWK) :
    ((∃ k ∈ keys, JWK.find k "kid" = none) →
      get_key_as_pem algorithm issuerUrl keyId keys = .error (.keyError "kid")) ∧
    (∀ m, (get_key_as_pem algorithm issuerUrl keyId keys = .error (.unknownKeyId m) ∨
           get_key_as_pem algorithm issuerUrl keyId keys = .error (.unknownAlgorithm m)) →
      ∀ k ∈ keys, (JWK.find k "kid").isSome) ∧
    (∀ klast, (∀ k ∈ keys, (JWK.find k "kid").isSome) →
      keys.reverse.find? (kidMatches keyId) = some klast →
      (JWK.find klast "alg" = none →
        get_key_as_pem algorithm issuerUrl keyId keys = .error (.keyError "alg")) ∧
      (JWK.find klast "alg" = some algorithm → JWK.find klast "e" = none →
        get_key_as_pem algorithm issuerUrl keyId keys = .error (.keyError "e")) ∧
      (∀ e, JWK.find klast "alg" = some algorithm → JWK.find klast "e" = some e →
        JWK.find klast "n" = none →
        get_key_as_pem algorithm issuerUrl keyId keys = .error (.keyError "n"))) := by
  refine ⟨?_, ?_, ?_⟩
  · intro h
    unfold get_key_as_pem
    rw [scanKeys_missing_kid keyId keys none h]
  · intro m hor k hk
    by_contra habs
    have hnone : JWK.find k "kid" = none :=
      Option.not_isSome_iff_eq_none.mp habs
    have herr : get_key_as_pem algorithm issuerUrl keyId keys
        = .error (.keyError "kid") := by
      unfold get_key_as_pem
      rw [scanKeys_missing_kid keyId keys none ⟨k, hk, hnone⟩]
    rcases hor with h1 | h1 <;> rw [herr] at h1 <;> simp at h1
  · intro klast hkids hlast
    unfold get_key_as_pem
    rw [scanKeys_all_kids keyId keys none hkids, hlast]
    refine ⟨?_, ?_, ?_⟩
    · intro halg
      simp [halg]
    · intro halg he
      simp [halg, he]
    · intro e halg he hn
      simp [halg, he, hn]

/-- C10 witness: the contract applied at concrete JWKS lists — a list
with a `kid`-less entry yields `KeyError` on `kid`; an unknown-kid
lookup (typed error) implies all entries had `kid`; a matched entry
without `alg` yields `KeyError` on `alg`. -/
theorem get_key_as_pem_keyError_contract_witness :
    get_key_as_pem "RS256" "https://issuer.example.com/" "k1"
        [jwkFirst, jwkNoKid] = .error (.keyError "kid") ∧
    (JWK.find jwkFirst "kid").isSome ∧
    get_key_as_pem "RS256" "https://issuer.example.com/" "k1"
        [jwkNoAlg] = .error (.keyError "alg") := by
  refine ⟨?_, ?_, ?_⟩
  · exact (get_key_as_pem_keyError_contract "RS256" "https://issuer.example.com/"
      "k1" [jwkFirst, jwkNoKid]).1 ⟨jwkNoKid, by decide, by decide⟩
  · exact (get_key_as_pem_keyError_contract "RS256" "https://issuer.example.com/"
      "zz" [jwkFirst]).2.1 "Issuer https://issuer.example.com/ has no kid zz"
      (Or.inl (by rfl)) jwkFirst (by decide)
  · exact ((get_key_as_pem_keyError_contract "RS256" "https://issuer.example.com/"
      "k1" [jwkNoAlg]).2.2 jwkNoAlg (by decide) (by decide)).1 (by decide)

/- ---------------------------------------------------------------------
   Claim C6
--------------------------------------------------------------------- -/

/-- C6 counterexample: configured `login_params` CAN override
`response_type`.  With `login_params = [(response_type, token)]` the
final query parameters bind `response_type` to `token`, not `code`
(`params.update(self._config.login_params)` replaces every default). -/
theorem get_redirect_url_response_type_counterexample :
    (get_redirect_url_params cfgOverride "somestate").lookup "response_type"
        = some "token" ∧
    (some "token" : Option String) ≠ some "code" := by
  constructor
  · rfl
  · decide

/-- C6 (amended): the URL produced by `get_redirect_url` contains the
query parameter `response_type=code` whenever the configured
`login_params` do not themselves bind `response_type`; configured
`login_params` may override every default parameter — `client_id`,
`redirect_uri`, `scope`, `state`, and also `response_type` (the last
binding in `login_params` wins). -/
theorem get_redirect_url_params_response_type (config : OIDCConfig) (state : String) :
    (lastVal config.login_params "response_type" = none →
      (get_redirect_url_params config state).lookup "response_type" = some "code") ∧
    (∀ v, lastVal config.login_params "response_type" = some v →
      (get_redirect_url_params config state).lookup "response_type" = some v) := by
  constructor
  · intro h
    simp only [get_redirect_url_params]
    rw [lookup_dictUpdate, h]
    simp [List.lookup]
  · intro v h
    simp only [get_redirect_url_params]
    rw [lookup_dictUpdate, h]

/-- C6 witness: with empty `login_params` the parameters carry
`response_type=code`; with `login_params` rebinding `response_type` the
override wins. -/
theorem get_redirect_url_params_response_type_witness :
    (get_redirect_url_params cfgPlain "somestate").lookup "response_type"
        = some "code" ∧
    (get_redirect_url_params cfgOverride "somestate").lookup "response_type"
        = some "token" :=
  ⟨(get_redirect_url_params_response_type cfgPlain "somestate").1 (by decide),
   (get_redirect_url_params_response_type cfgOverride "somestate").2 "token" (by decide)⟩

/- ---------------------------------------------------------------------
   Claim C7
--------------------------------------------------------------------- -/

/-- C7: in `create_user_info`, when the token-endpoint response body is
not parseable as JSON, the failure depends only on the HTTP status —
non-200 fails with the HTTP status error (`raise_for_status`), 200
fails with the OIDC "not valid JSON" error — and the two paths are
never collapsed (their outcomes differ). -/
theorem create_user_info_non_json_paths (tokenUrl : String) (status : Nat) :
    (status ≠ 200 → handleTokenResponse tokenUrl status none = .httpError status) ∧
    handleTokenResponse tokenUrl 200 none =
      .oidcError "Response from \x7btoken_url\x7d not valid JSON" ∧
    (status ≠ 200 →
      handleTokenResponse tokenUrl status none ≠ handleTokenResponse tokenUrl 200 none) := by
  refine ⟨?_, ?_, ?_⟩
  · intro h
    simp [handleTokenResponse, h]
  · simp [handleTokenResponse]
  · intro h
    simp [handleTokenResponse, h]

/-- C7 witness: a 404 with a non-JSON body fails with the HTTP status
error. -/
theorem create_user_info_non_json_paths_witness :
    handleTokenResponse "https://token.example.com/" 404 none = .httpError 404 :=
  (create_user_info_non_json_paths "https://token.example.com/" 404).1 (by decide)

/- ---------------------------------------------------------------------
   Claim C8
--------------------------------------------------------------------- -/

/-- C8 counterexample: a non-200 response whose JSON body contains an
`error` field but no `error_description` field does NOT fail with an
`OIDCError` — `result["error_description"]` raises an untyped
`KeyError`. -/
theorem create_user_info_error_missing_description_counterexample :
    handleTokenResponse "https://token.example.com/" 400
        (some [("error", "invalid_request")]) = .fieldKeyError "error_description" := by
  rfl

/-- C8 (amended): for every token-endpoint response with HTTP status
≠ 200 whose JSON body contains both an `error` field and an
`error_description` field, `create_user_info` fails with an `OIDCError`
whose message is the error value, a colon-space separator, and the
error-description value; when `error_description` is absent the call
instead fails with an untyped `KeyError`. -/
theorem handleTokenResponse_error_field (tokenUrl : String) (status : Nat)
    (result : List (String × String)) (e d : String)
    (hs : status ≠ 200)
    (he : result.lookup "error" = some e)
    (hd : result.lookup "error_description" = some d) :
    handleTokenResponse tokenUrl status (some result) = .oidcError (e ++ ": " ++ d) := by
  simp [handleTokenResponse, hs, he, hd]

/-- C8 witness: a 400 response with both fields yields the concatenated
OIDC error message. -/
theorem handleTokenResponse_error_field_witness :
    handleTokenResponse "https://token.example.com/" 400
        (some [("error", "invalid_request"), ("error_description", "bad code")])
      = .oidcError "invalid_request: bad code" :=
  handleTokenResponse_error_field "https://token.example.com/" 400
    [("error", "invalid_request"), ("error_description", "bad code")]
    "invalid_request" "bad code" (by decide) (by decide) (by decide)

/- ---------------------------------------------------------------------
   Claim C3
--------------------------------------------------------------------- -/

/-- C3 counterexample: a cached child token whose remaining lifetime
equals exactly half of its original lifetime is treated as VALID by
`_is_token_valid` (the invalidity test is a strict `<`), contradicting
the claim that it is invalid at the boundary. -/
theorem is_token_valid_half_boundary_counterexample :
    ((100 : ℚ) - 50) = ((100 : ℚ) - 0) / 2 ∧
    is_token_valid redisHalf 50 tdHalf.token none = true := by
  constructor
  · norm_num
  · norm_num [is_token_valid, redisHalf, tdHalf]

/-- C3 (amended): a cached child token with an expiration is treated as
usable by the validity check (and hence returnable as a cache hit) iff
its remaining lifetime is at least half of its original lifetime,
`expires - now ≥ (expires - created) / 2`; when the remaining lifetime
equals exactly half the original lifetime the token is still valid, and
a new token is issued only when strictly more than half the lifetime has
passed. -/
theorem is_token_valid_half_life
    (redisGet : Token → Option TokenData) (now : Int) (tok : Token)
    (scopes : Option (List String)) (data : TokenData) (e : Int)
    (hget : redisGet tok = some data)
    (hsub : ∀ ss, scopes = some ss → data.scopes.all (fun s => ss.contains s) = true)
    (hexp : data.expires = some e) :
    (is_token_valid redisGet now tok scopes = true ↔
      ((e - data.created : Int) : ℚ) / 2 ≤ ((e - now : Int) : ℚ)) := by
  cases scopes with
  | none =>
    simp only [is_token_valid, hget, hexp]
    by_cases hc : ((e - now : Int) : ℚ) < ((e - data.created : Int) : ℚ) / 2
    · simp [hc, not_le.mpr hc]
    · simp [hc, not_lt.mp hc]
  | some ss =>
    have hs := hsub ss rfl
    simp only [is_token_valid, hget, hexp, hs]
    by_cases hc : ((e - now : Int) : ℚ) < ((e - data.created : Int) : ℚ) / 2
    · simp [hc, not_le.mpr hc]
    · simp [hc, not_lt.mp hc]

/-- C3 witness: the half-life rule applied at the exact-half boundary:
the token created at 0 and expiring at 100 is valid at `now = 50`. -/
theorem is_token_valid_half_life_witness :
    is_token_valid redisHalf 50 tdHalf.token none = true := by
  have h := is_token_valid_half_life redisHalf 50 tdHalf.token none tdHalf 100
    (by norm_num [redisHalf]) (by intro ss hss; cases hss) rfl
  exact h.mpr (by norm_num [tdHalf])

/- ---------------------------------------------------------------------
   Claim C4
--------------------------------------------------------------------- -/

/-- C4: for every call to `get_internal_token` with requested scopes,
a cached token is returned (cache hit) only if the scopes stored with
that token are a subset of the requested scopes; whenever the stored
scopes are not a subset, the validity check fails and the call falls
through to the issuance path. -/
theorem get_internal_token_scope_subset
    (env : TokenCacheEnv) (st : TokenStores) (td : TokenData)
    (service : String) (scopes : List String) (ip : String) (t : Token)
    (hcache : internalCacheGet st td service scopes = some t) :
    (is_token_valid (redisGetData st) env.now t (some scopes) = true →
      get_internal_token env st td service scopes ip = (t, st) ∧
      ∃ data, redisGetData st t = some data ∧
        data.scopes.all (fun s => scopes.contains s) = true) ∧
    (∀ data, redisGetData st t = some data →
      data.scopes.all (fun s => scopes.contains s) = false →
      get_internal_token env st td service scopes ip
        = issueInternal env st td service scopes ip) := by
  constructor
  · intro hvalid
    constructor
    · simp [get_internal_token, hcache, hvalid]
    · rcases hdata : redisGetData st t with _ | data
      · simp [is_token_valid, hdata] at hvalid
      · refine ⟨data, rfl, ?_⟩
        cases hall : data.scopes.all fun s => scopes.contains s with
        | false =>
          exfalso
          simp only [is_token_valid, hdata, hall] at hvalid
          simp at hvalid
        | true => rfl
  · intro data hdata hsub
    have hinvalid : is_token_valid (redisGetData st) env.now t (some scopes) = false := by
      simp only [is_token_valid, hdata, hsub]
      rfl
    simp [get_internal_token, hcache, hinvalid]

/-- C4 witness: a cached token with scopes `[read]` is a hit for
requested scopes `[read]`; a cached token with scopes `[admin]` forces
a miss for requested scopes `[read]`. -/
theorem get_internal_token_scope_subset_witness :
    get_internal_token envMiss stCacheHit tdParent "svc" ["read"] "127.0.0.1"
        = (tdCachedChild.token, stCacheHit) ∧
    get_internal_token envMiss stCacheWide tdParent "svc" ["read"] "127.0.0.1"
        = issueInternal envMiss stCacheWide tdParent "svc" ["read"] "127.0.0.1" := by
  constructor
  · exact ((get_internal_token_scope_subset envMiss stCacheHit tdParent "svc"
      ["read"] "127.0.0.1" tdCachedChild.token rfl).1
      (by norm_num [is_token_valid, redisGetData, stCacheHit, tdCachedChild,
        envMiss])).1
  · exact (get_internal_token_scope_subset envMiss stCacheWide tdParent "svc"
      ["read"] "127.0.0.1" tdCachedWide.token rfl).2 tdCachedWide rfl (by decide)

/- ---------------------------------------------------------------------
   Claim C5
--------------------------------------------------------------------- -/

/-- C5: for every parent token data with a non-null expiration, every
child token newly minted by `_create_internal_token` or
`_create_notebook_token` has `created = now` and
`expires = min (now + token_lifetime) parent.expires`; consequently a
freshly issued child token never expires later than its parent. -/
theorem create_child_token_expires_capped
    (env : TokenCacheEnv) (st : TokenStores) (td : TokenData)
    (service : String) (scopes : List String) (ip : String) (pe : Int)
    (hpe : td.expires = some pe) :
    (∃ d, (create_internal_token_new env st td service scopes ip).2.redis
          env.freshToken.key = some d ∧
      (create_internal_token_new env st td service scopes ip).1 = env.freshToken ∧
      d.created = env.now ∧
      d.expires = some (min (env.now + env.token_lifetime) pe) ∧
      min (env.now + env.token_lifetime) pe ≤ pe) ∧
    (∃ d, (create_notebook_token_new env st td ip).2.redis
          env.freshToken.key = some d ∧
      (create_notebook_token_new env st td ip).1 = env.freshToken ∧
      d.created = env.now ∧
      d.expires = some (min (env.now + env.token_lifetime) pe) ∧
      min (env.now + env.token_lifetime) pe ≤ pe) := by
  have hmin : (if pe < env.now + env.token_lifetime then pe
      else env.now + env.token_lifetime) = min (env.now + env.token_lifetime) pe := by
    rcases lt_or_le pe (env.now + env.token_lifetime) with h | h
    · rw [if_pos h, min_eq_right h.le]
    · rw [if_neg (not_lt.mpr h), min_eq_left h]
  constructor
  · refine ⟨⟨env.freshToken, td.username, .internal, scopes, env.now,
        some (min (env.now + env.token_lifetime) pe), td.name, td.email,
        td.uid, td.groups⟩,
      ?_, rfl, rfl, rfl, min_le_right _ _⟩
    simp [create_internal_token_new, hpe, hmin]
  · refine ⟨⟨env.freshToken, td.username, .notebook, td.scopes, env.now,
        some (min (env.now + env.token_lifetime) pe), td.name, td.email,
        td.uid, td.groups⟩,
      ?_, rfl, rfl, rfl, min_le_right _ _⟩
    simp [create_notebook_token_new, hpe, hmin]

/-- C5 witness: minting under the parent `tdParent` (which expires at
7200) with lifetime 3600 starting at 0 returns the fresh token. -/
theorem create_child_token_expires_capped_witness :
    tdParent.expires = some 7200 ∧
    (create_internal_token_new envMiss stDbHit tdParent "svc" ["read"] "ip").1
      = envMiss.freshToken := by
  have h := (create_child_token_expires_capped envMiss stDbHit tdParent "svc"
    ["read"] "ip" 7200 rfl).1
  rcases h with ⟨d, _, h1, _⟩
  exact ⟨rfl, h1⟩

/- ---------------------------------------------------------------------
   Claim C9
--------------------------------------------------------------------- -/

/-- C9 counterexample: on a cache miss where a matching child token is
found in the relational store and its data is in the K/V store, the
found token IS stored into the in-memory cache during the call: the
internal cache maps the parent's key to the found token afterwards,
while it was empty before. -/
theorem get_internal_token_db_found_caches_counterexample :
    (get_internal_token envDbHit stDbHit tdParent "svc" ["read"] "ip").1
        = tdFound.token ∧
    (get_internal_token envDbHit stDbHit tdParent "svc" ["read"] "ip").2.internalCache
        (internalCacheKey tdParent "svc" ["read"]) = some tdFound.token ∧
    stDbHit.internalCache (internalCacheKey tdParent "svc" ["read"]) = none := by
  refine ⟨rfl, rfl, rfl⟩

/-- C9 (amended): on a cache miss of `get_internal_token` or
`get_notebook_token` where a matching child token is found in the
relational store and its data is also present in the K/V store, that
token is returned AND stored into the in-memory cache before returning
(the cache-store step runs for found tokens exactly as for freshly
minted ones); the K/V store, the database, and the history are left
unchanged. -/
theorem get_token_db_found_returned_and_cached
    (env : TokenCacheEnv) (st : TokenStores) (td : TokenData)
    (service : String) (scopes : List String) (ip : String) (key : String)
    (data : TokenData) :
    (internalCacheGet st td service scopes = none →
      env.dbInternalKey td service scopes (minimum_expiration env td) = some key →
      st.redis key = some data →
      get_internal_token env st td service scopes ip
        = (data.token, internalCacheStore st td service scopes data.token)) ∧
    (notebookCacheGet st td = none →
      env.dbNotebookKey td (minimum_expiration env td) = some key →
      st.redis key = some data →
      get_notebook_token env st td ip
        = (data.token, notebookCacheStore st td data.token)) := by
  constructor
  · intro hc hdb hr
    simp [get_internal_token, hc, issueInternal, create_internal_token, hdb, hr]
  · intro hc hdb hr
    simp [get_notebook_token, hc, issueNotebook, create_notebook_token, hdb, hr]

/-- C9 witness: in the concrete database-hit scenario the found token
is returned and the only store change is the cache-store of the found
token. -/
theorem get_token_db_found_returned_and_cached_witness :
    get_internal_token envDbHit stDbHit tdParent "svc" ["read"] "ip"
      = (tdFound.token, internalCacheStore stDbHit tdParent "svc" ["read"]
          tdFound.token) :=
  (get_token_db_found_returned_and_cached envDbHit stDbHit tdParent "svc"
    ["read"] "ip" "foundkey" tdFound).1 rfl rfl rfl
